import Mathlib

/-!
Verification of the SOE protocol engine from
`src/core/network/soe_protocol.cpp` / `soe_protocol.hpp`
(session-oriented transport over UDP: wire codec, session registry,
dispatcher).  Byte buffers are modelled as `List Nat` whose elements are
`< 256` where that matters (the C++ type `uint8_t` guarantees it), machine
integers as `Nat` with explicit reduction modulo `2^w` where the C++ code
can overflow, and the two `unordered_map` indices as association lists with
set/erase semantics.
-/

set_option maxHeartbeats 1000000

namespace SOE

/-- Protocol constants from `soe_protocol.hpp`. -/
def SOE_CRC_SEED : Nat := 0xDEAD

def SOE_MAX_PACKET_SIZE : Nat := 496

def SOE_SESSION_REQUEST : Nat := 0x01

def SOE_SESSION_RESPONSE : Nat := 0x02

def SOE_MULTI_PACKET : Nat := 0x03

def SOE_DISCONNECT : Nat := 0x05

def SOE_PING : Nat := 0x06

def SOE_NET_STATUS_REQUEST : Nat := 0x07

def SOE_NET_STATUS_RESPONSE : Nat := 0x08

def SOE_DATA_CHANNEL_A : Nat := 0x09

def SOE_DATA_CHANNEL_B : Nat := 0x0A

def SOE_DATA_CHANNEL_C : Nat := 0x0B

def SOE_DATA_CHANNEL_D : Nat := 0x0C

def SOE_DATA_FRAG_A : Nat := 0x0D

def SOE_DATA_FRAG_B : Nat := 0x0E

def SOE_DATA_FRAG_C : Nat := 0x0F

def SOE_DATA_FRAG_D : Nat := 0x10

def SOE_ACK_A : Nat := 0x11

def SOE_ACK_B : Nat := 0x12

def SOE_ACK_C : Nat := 0x13

def SOE_ACK_D : Nat := 0x14

def SOE_OUT_OF_ORDER_A : Nat := 0x15

def SOE_OUT_OF_ORDER_B : Nat := 0x16

def SOE_OUT_OF_ORDER_C : Nat := 0x17

def SOE_OUT_OF_ORDER_D : Nat := 0x18

/-- One more than the largest `uint32_t` value: `next_session_id_` wraps
modulo this. -/
def U32 : Nat := 4294967296

/-! ## Wire codec: `SOEPacket` primitive readers

A packet's read side is a byte buffer `data` plus a cursor
`read_position_`.  Each reader takes `(data, pos)` and returns
`(value, new position)`, mirroring the member functions of `SOEPacket`. -/

/-- Source: `SOEPacket::ReadUInt8`: `if (read_position_ >= data_.size()) return 0;
return data_[read_position_++];` -/
def ReadUInt8 (data : List Nat) (pos : Nat) : Nat × Nat :=
  if pos ≥ data.length then (0, pos)
  else (data.getD pos 0, pos + 1)

/-- Source: `SOEPacket::ReadUInt16`: guard `read_position_ + 1 >= data_.size()`
returns 0 without advancing; otherwise two bytes little-endian. -/
def ReadUInt16 (data : List Nat) (pos : Nat) : Nat × Nat :=
  if pos + 1 ≥ data.length then (0, pos)
  else (data.getD pos 0 ||| (data.getD (pos + 1) 0 <<< 8), pos + 2)

/-- Source: `SOEPacket::ReadUInt32`: guard `read_position_ + 3 >= data_.size()`
returns 0 without advancing; otherwise four bytes little-endian. -/
def ReadUInt32 (data : List Nat) (pos : Nat) : Nat × Nat :=
  if pos + 3 ≥ data.length then (0, pos)
  else (data.getD pos 0 ||| (data.getD (pos + 1) 0 <<< 8) |||
        (data.getD (pos + 2) 0 <<< 16) ||| (data.getD (pos + 3) 0 <<< 24),
        pos + 4)

/-- Source: `SOEPacket::ReadUInt64`: guard `read_position_ + 7 >= data_.size()`
returns 0 without advancing; otherwise `value |= data_[pos+i] << (i*8)`
for `i = 0..7`. -/
def ReadUInt64 (data : List Nat) (pos : Nat) : Nat × Nat :=
  if pos + 7 ≥ data.length then (0, pos)
  else ((List.range 8).foldl (fun v i => v ||| (data.getD (pos + i) 0 <<< (i * 8))) 0,
        pos + 8)

/-- Source: `SOEPacket::ReadString`: reads a 2-byte length via `ReadUInt16` (which
yields 0 and keeps the cursor in place when fewer than 2 bytes remain),
then returns the next `length` raw bytes if they fit, else the empty
string with the cursor unmoved past the length field. -/
def ReadString (data : List Nat) (pos : Nat) : List Nat × Nat :=
  let r := ReadUInt16 data pos
  if r.2 + r.1 > data.length then ([], r.2)
  else ((data.drop r.2).take r.1, r.2 + r.1)

/-- Source: `SOEPacket::WriteUInt8`: `data_.push_back(value)`; the `uint8_t`
parameter type truncates the argument modulo 256. -/
def WriteUInt8 (data : List Nat) (v : Nat) : List Nat :=
  data ++ [v % 256]

/-- Source: `SOEPacket::WriteUInt16`: pushes `value & 0xFF` then
`(value >> 8) & 0xFF`. -/
def WriteUInt16 (data : List Nat) (v : Nat) : List Nat :=
  data ++ [v &&& 0xFF, (v >>> 8) &&& 0xFF]

/-- Source: `SOEPacket::WriteUInt32`: pushes the four bytes little-endian, each
masked with `0xFF`. -/
def WriteUInt32 (data : List Nat) (v : Nat) : List Nat :=
  data ++ [v &&& 0xFF, (v >>> 8) &&& 0xFF, (v >>> 16) &&& 0xFF, (v >>> 24) &&& 0xFF]

/-- Source: `SOEPacket::GetOpcode`: 0 when shorter than 2 bytes, else
`data_[0] | (data_[1] << 8)`. -/
def GetOpcode (data : List Nat) : Nat :=
  if data.length < 2 then 0
  else data.getD 0 0 ||| (data.getD 1 0 <<< 8)

/-- Source: `SOEPacket::GetSequence`: 0 when shorter than 4 bytes, else
`data_[2] | (data_[3] << 8)`. -/
def GetSequence (data : List Nat) : Nat :=
  if data.length < 4 then 0
  else data.getD 2 0 ||| (data.getD 3 0 <<< 8)

/-! ## Claims C4 and C10: permissive parsing of truncated buffers -/

/-- C4 (claim as stated): a primitive read whose full width does not fit
returns zero and leaves the cursor at the END of the buffer.  False: the
code returns early without touching `read_position_`, so the cursor stays
where it was.  Concretely, `ReadUInt16` on the 1-byte buffer `[5]` yields
`(0, 0)`, and the cursor 0 is not the buffer end 1. -/
theorem C4_counterexample :
    ReadUInt16 [(5 : Nat)] 0 = (0, 0) ∧
    (ReadUInt16 [(5 : Nat)] 0).2 ≠ [(5 : Nat)].length := by
  decide

/-- C4 (amended): a primitive read whose full width does not fit in the
remaining bytes does not raise an error: it returns the zero value and
leaves the cursor UNCHANGED (so it advances no further than the data
available), and starting from any cursor within the buffer no read ever
leaves the cursor past the buffer bound. -/
theorem C4_truncated_reads_zero_cursor_unchanged (data : List Nat) (pos : Nat) :
    (data.length ≤ pos → ReadUInt8 data pos = (0, pos)) ∧
    (data.length ≤ pos + 1 → ReadUInt16 data pos = (0, pos)) ∧
    (data.length ≤ pos + 3 → ReadUInt32 data pos = (0, pos)) ∧
    (data.length ≤ pos + 7 → ReadUInt64 data pos = (0, pos)) ∧
    (pos ≤ data.length →
      (ReadUInt8 data pos).2 ≤ data.length ∧
      (ReadUInt16 data pos).2 ≤ data.length ∧
      (ReadUInt32 data pos).2 ≤ data.length ∧
      (ReadUInt64 data pos).2 ≤ data.length) := by
  refine ⟨?_, ?_, ?_, ?_, ?_⟩
  · intro h
    simp [ReadUInt8, h]
  · intro h
    simp [ReadUInt16, h]
  · intro h
    simp [ReadUInt32, h]
  · intro h
    simp [ReadUInt64, h]
  · intro h
    refine ⟨?_, ?_, ?_, ?_⟩
    · unfold ReadUInt8
      split
      · simpa using h
      · simp only []
        omega
    · unfold ReadUInt16
      split
      · simpa using h
      · simp only []
        omega
    · unfold ReadUInt32
      split
      · simpa using h
      · simp only []
        omega
    · unfold ReadUInt64
      split
      · simpa using h
      · simp only []
        omega

/-- C4 witness: the amended statement evaluated on concrete buffers. -/
theorem C4_witness :
    ReadUInt16 [(5 : Nat)] 0 = (0, 0) ∧
    ReadUInt32 [(1 : Nat), 2, 3] 0 = (0, 0) ∧
    (ReadUInt16 [(1 : Nat), 2, 3] 0).2 ≤ 3 := by
  refine ⟨(C4_truncated_reads_zero_cursor_unchanged [(5 : Nat)] 0).2.1 (by decide),
          (C4_truncated_reads_zero_cursor_unchanged [(1 : Nat), 2, 3] 0).2.2.1 (by decide),
          ?_⟩
  have h := (C4_truncated_reads_zero_cursor_unchanged [(1 : Nat), 2, 3] 0).2.2.2.2 (by decide)
  simpa using h.2.1

/-- C10 (claim as stated): `ReadString` ALWAYS consumes the 2-byte length
field first.  False: when fewer than 2 bytes remain, `ReadUInt16` returns
0 without advancing, so on the 1-byte buffer `[7]` the cursor stays at 0
instead of moving past a length field. -/
theorem C10_counterexample :
    ReadString [(7 : Nat)] 0 = ([], 0) ∧ (ReadString [(7 : Nat)] 0).2 ≠ 2 := by
  decide

/-- C10 (amended): when at least 2 bytes remain, `ReadString` consumes the
2-byte length field; if the declared length then exceeds the remaining
bytes it returns the empty string with the cursor just past the length
field, otherwise it returns exactly `length` raw bytes and advances by
`length`.  When fewer than 2 bytes remain, the length reads as 0, the
cursor does not move, and the empty string is returned. -/
theorem C10_readstring_length_field (data : List Nat) (pos : Nat) :
    (∀ len, pos + 1 < data.length → (ReadUInt16 data pos).1 = len →
      (len > data.length - (pos + 2) → ReadString data pos = ([], pos + 2)) ∧
      (len ≤ data.length - (pos + 2) →
        ReadString data pos = ((data.drop (pos + 2)).take len, pos + 2 + len))) ∧
    (data.length ≤ pos + 1 → ReadString data pos = ([], pos)) := by
  constructor
  · intro len hlt hlen
    have hr : ReadUInt16 data pos = (len, pos + 2) := by
      unfold ReadUInt16 at hlen ⊢
      rw [if_neg (by omega)] at hlen ⊢
      simp only [] at hlen
      rw [hlen]
    constructor
    · intro hbig
      unfold ReadString
      rw [hr]
      have hc : pos + 2 + len > data.length := by omega
      simp [hc]
    · intro hfit
      unfold ReadString
      rw [hr]
      have hc : ¬ (pos + 2 + len > data.length) := by omega
      simp [hc]
  · intro h
    have h16 : ReadUInt16 data pos = (0, pos) := by
      unfold ReadUInt16
      rw [if_pos (by omega)]
    unfold ReadString
    rw [h16]
    simp

/-- C10 witness: the amended statement evaluated on concrete buffers. -/
theorem C10_witness :
    ReadString [(2 : Nat), 0, 10, 20] 0 = ([10, 20], 4) ∧
    ReadString [(9 : Nat), 0, 10] 0 = ([], 2) ∧
    ReadString [(7 : Nat)] 0 = ([], 0) := by
  refine ⟨((C10_readstring_length_field [(2 : Nat), 0, 10, 20] 0).1 2 (by decide)
            (by decide)).2 (by decide),
          ((C10_readstring_length_field [(9 : Nat), 0, 10] 0).1 9 (by decide)
            (by decide)).1 (by decide),
          (C10_readstring_length_field [(7 : Nat)] 0).2 (by decide)⟩

/-! ## Checksum: `SOEProtocolHandler::CalculateChecksum` and packet CRC -/

/-- One inner iteration of the checksum loop:
`if (crc & 1) crc = (crc >> 1) ^ 0x8408; else crc >>= 1;` -/
def crcShift (c : Nat) : Nat :=
  if c &&& 1 = 0 then c >>> 1 else (c >>> 1) ^^^ 0x8408

/-- The inner `for (int j = 0; j < 8; ++j)` loop applied `n` times. -/
def crcShiftIter : Nat → Nat → Nat
  | 0, c => c
  | n + 1, c => crcShiftIter n (crcShift c)

/-- Source: `SOEProtocolHandler::CalculateChecksum`: `uint16_t crc = seed;` (the
cast truncates modulo 2^16), then for each byte `crc ^= data[i]` followed
by eight `crcShift` rounds. -/
def CalculateChecksum (data : List Nat) (seed : Nat) : Nat :=
  data.foldl (fun c b => crcShiftIter 8 (c ^^^ b)) (seed % 65536)

/-- Source: `SOEPacket::CalculateCRC`: checksum over the whole buffer with the
fixed seed `SOE_CRC_SEED`. -/
def CalculateCRC (data : List Nat) : Nat :=
  CalculateChecksum data SOE_CRC_SEED

/-- Source: `SOEPacket::AppendCRC`: computes the CRC and appends it via
`WriteUInt16`. -/
def AppendCRC (data : List Nat) : List Nat :=
  WriteUInt16 data (CalculateCRC data)

/-- Source: `SOEPacket::ValidateCRC`: false on buffers shorter than 2 bytes, else
compares the trailing little-endian 16-bit value with the checksum of all
preceding bytes. -/
def ValidateCRC (data : List Nat) : Bool :=
  if data.length < 2 then false
  else
    (data.getD (data.length - 2) 0 ||| (data.getD (data.length - 1) 0 <<< 8)) ==
      CalculateChecksum (data.take (data.length - 2)) SOE_CRC_SEED

theorem crcShift_lt (c : Nat) (hc : c < 65536) : crcShift c < 65536 := by
  have h1 : c >>> 1 < 65536 := by
    rw [Nat.shiftRight_eq_div_pow]
    omega
  unfold crcShift
  split
  · exact h1
  · have h2 : (65536 : Nat) = 2 ^ 16 := by norm_num
    rw [h2] at h1 ⊢
    exact Nat.xor_lt_two_pow h1 (by norm_num)

theorem crcShiftIter_lt (n c : Nat) (hc : c < 65536) : crcShiftIter n c < 65536 := by
  induction n generalizing c with
  | zero => exact hc
  | succ k ih => exact ih (crcShift c) (crcShift_lt c hc)

theorem CalculateChecksum_lt (data : List Nat) (seed : Nat)
    (hd : ∀ b ∈ data, b < 256) : CalculateChecksum data seed < 65536 := by
  unfold CalculateChecksum
  have h : ∀ (l : List Nat), (∀ b ∈ l, b < 256) → ∀ (c : Nat), c < 65536 →
      l.foldl (fun c b => crcShiftIter 8 (c ^^^ b)) c < 65536 := by
    intro l
    induction l with
    | nil => intro _ c hc; exact hc
    | cons x t ih =>
      intro hl c hc
      simp only [List.foldl_cons]
      apply ih (fun b hb => hl b (List.mem_cons_of_mem x hb))
      apply crcShiftIter_lt
      have h2 : (65536 : Nat) = 2 ^ 16 := by norm_num
      rw [h2] at hc ⊢
      refine Nat.xor_lt_two_pow hc ?_
      calc x < 256 := hl x (List.mem_cons_self x t)
      _ ≤ 2 ^ 16 := by norm_num
  exact h data hd (seed % 65536) (Nat.mod_lt seed (by norm_num))

/-- Reassembling the two little-endian bytes of a 16-bit value yields the
value back. -/
theorem low_high_byte_or (c : Nat) (hc : c < 65536) :
    (c &&& 255) ||| (((c >>> 8) &&& 255) <<< 8) = c := by
  have h255 : (255 : Nat) = 2 ^ 8 - 1 := by norm_num
  apply Nat.eq_of_testBit_eq
  intro i
  simp only [Nat.testBit_or, h255, Nat.and_pow_two_sub_one_eq_mod,
    Nat.testBit_mod_two_pow, Nat.testBit_shiftLeft, Nat.testBit_shiftRight]
  by_cases hi : i < 8
  · have h8 : ¬ (8 ≤ i) := by omega
    simp [hi, h8]
  · have h8 : 8 ≤ i := by omega
    by_cases hi16 : i < 16
    · have hsub : i - 8 < 8 := by omega
      have hadd : 8 + (i - 8) = i := by omega
      simp [hi, h8, hsub, hadd]
    · have hsub : ¬ (i - 8 < 8) := by omega
      have hbit : c.testBit i = false := by
        apply Nat.testBit_lt_two_pow
        calc c < 65536 := hc
        _ = 2 ^ 16 := by norm_num
        _ ≤ 2 ^ i := Nat.pow_le_pow_right (by norm_num) (by omega)
      simp [hi, h8, hsub, hbit]

/-- C8: appending the CRC of a buffer and then validating succeeds for
every buffer of bytes; validating any buffer shorter than 2 bytes returns
false; validating any buffer whose recomputed checksum over
all-but-the-last-two bytes differs from the stored trailing 16-bit value
returns false (a `Bool` result, never an exception). -/
theorem C8_crc_append_validate_roundtrip (b : List Nat) (hb : ∀ x ∈ b, x < 256) :
    ValidateCRC (AppendCRC b) = true ∧
    (∀ d : List Nat, d.length < 2 → ValidateCRC d = false) ∧
    (∀ d : List Nat, 2 ≤ d.length →
      d.getD (d.length - 2) 0 ||| (d.getD (d.length - 1) 0 <<< 8) ≠
        CalculateChecksum (d.take (d.length - 2)) SOE_CRC_SEED →
      ValidateCRC d = false) := by
  refine ⟨?_, ?_, ?_⟩
  · have hlt : CalculateChecksum b SOE_CRC_SEED < 65536 :=
      CalculateChecksum_lt b SOE_CRC_SEED hb
    have hA : AppendCRC b = b ++ [CalculateChecksum b SOE_CRC_SEED &&& 255,
        (CalculateChecksum b SOE_CRC_SEED >>> 8) &&& 255] := rfl
    rw [hA]
    unfold ValidateCRC
    rw [if_neg (by simp)]
    have hL : (b ++ [CalculateChecksum b SOE_CRC_SEED &&& 255,
        (CalculateChecksum b SOE_CRC_SEED >>> 8) &&& 255]).length = b.length + 2 := by
      simp
    rw [hL]
    have e1 : b.length + 2 - 2 = b.length := by omega
    have e2 : b.length + 2 - 1 = b.length + 1 := by omega
    rw [e1, e2]
    have h1 : (b ++ [CalculateChecksum b SOE_CRC_SEED &&& 255,
        (CalculateChecksum b SOE_CRC_SEED >>> 8) &&& 255]).getD b.length 0 =
        CalculateChecksum b SOE_CRC_SEED &&& 255 := by
      rw [List.getD_append_right _ _ _ _ (le_refl _)]
      simp
    have h2 : (b ++ [CalculateChecksum b SOE_CRC_SEED &&& 255,
        (CalculateChecksum b SOE_CRC_SEED >>> 8) &&& 255]).getD (b.length + 1) 0 =
        (CalculateChecksum b SOE_CRC_SEED >>> 8) &&& 255 := by
      rw [List.getD_append_right _ _ _ _ (by omega)]
      simp
    have h3 : (b ++ [CalculateChecksum b SOE_CRC_SEED &&& 255,
        (CalculateChecksum b SOE_CRC_SEED >>> 8) &&& 255]).take b.length = b :=
      List.take_left b _
    rw [h1, h2, h3, low_high_byte_or _ hlt]
    exact beq_self_eq_true _
  · intro d hd
    unfold ValidateCRC
    rw [if_pos hd]
  · intro d hd hne
    unfold ValidateCRC
    rw [if_neg (by omega)]
    exact beq_eq_false_iff_ne.mpr hne

/-- C8 witness: the round trip and the short-buffer case on concrete
buffers. -/
theorem C8_witness :
    ValidateCRC (AppendCRC [1, 2, 3]) = true ∧ ValidateCRC [9] = false :=
  ⟨(C8_crc_append_validate_roundtrip [1, 2, 3] (by decide)).1,
   (C8_crc_append_validate_roundtrip [1, 2, 3] (by decide)).2.1 [9] (by decide)⟩

/-! ## Association maps

The two `std::unordered_map` indices of `BasicSOEHandler` are modelled as
association lists with at most one live binding per key:
`mset` is `operator[]` assignment (insert-or-overwrite), `mdel` is
`erase`, `mfind?` is `find`. -/

/-- Lookup of a key, returning the first (and, for lists built by `mset`
and `mdel`, only) binding. -/
def mfind? {κ : Type} [DecidableEq κ] {β : Type} (k : κ) : List (κ × β) → Option β
  | [] => none
  | p :: t => if p.1 = k then some p.2 else mfind? k t

/-- Removal of every binding of a key (`unordered_map::erase`). -/
def mdel {κ : Type} [DecidableEq κ] {β : Type} (k : κ) : List (κ × β) → List (κ × β)
  | [] => []
  | p :: t => if p.1 = k then mdel k t else p :: mdel k t

/-- Insert-or-overwrite (`unordered_map::operator[] = v`). -/
def mset {κ : Type} [DecidableEq κ] {β : Type} (k : κ) (v : β) (m : List (κ × β)) :
    List (κ × β) :=
  (k, v) :: mdel k m

theorem mfind?_cons {κ : Type} [DecidableEq κ] {β : Type} (k : κ) (p : κ × β)
    (t : List (κ × β)) :
    mfind? k (p :: t) = if p.1 = k then some p.2 else mfind? k t := rfl

theorem mfind?_mdel {κ : Type} [DecidableEq κ] {β : Type} (k k' : κ) (m : List (κ × β)) :
    mfind? k' (mdel k m) = if k' = k then none else mfind? k' m := by
  induction m with
  | nil => simp [mfind?, mdel]
  | cons p t ih =>
    unfold mdel
    by_cases hp : p.1 = k
    · rw [if_pos hp, ih, mfind?_cons]
      by_cases hk : k' = k
      · simp [hk]
      · rw [if_neg hk, if_neg hk, if_neg (fun hc : p.1 = k' => hk (hc.symm.trans hp))]
    · rw [if_neg hp, mfind?_cons, mfind?_cons, ih]
      by_cases hq : p.1 = k'
      · have hk : ¬ (k' = k) := fun hc => hp (hq.trans hc)
        rw [if_pos hq, if_neg hk, if_pos hq]
      · rw [if_neg hq, if_neg hq]

theorem mfind?_mset {κ : Type} [DecidableEq κ] {β : Type} (k k' : κ) (v : β)
    (m : List (κ × β)) :
    mfind? k' (mset k v m) = if k' = k then some v else mfind? k' m := by
  unfold mset
  rw [mfind?_cons, mfind?_mdel]
  by_cases hk : k' = k
  · rw [if_pos hk.symm, if_pos hk]
  · rw [if_neg (fun hc : k = k' => hk hc.symm), if_neg hk, if_neg hk]

theorem mem_mdel {κ : Type} [DecidableEq κ] {β : Type} (k : κ) (m : List (κ × β))
    (q : κ × β) : q ∈ mdel k m ↔ q ∈ m ∧ q.1 ≠ k := by
  induction m with
  | nil => simp [mdel]
  | cons p t ih =>
    unfold mdel
    by_cases hp : p.1 = k
    · rw [if_pos hp, ih]
      constructor
      · intro ⟨hm, hne⟩
        exact ⟨List.mem_cons_of_mem p hm, hne⟩
      · intro ⟨hm, hne⟩
        rcases List.mem_cons.mp hm with hq | hq
        · exact absurd (hq ▸ hp) hne
        · exact ⟨hq, hne⟩
    · rw [if_neg hp]
      constructor
      · intro hq
        rcases List.mem_cons.mp hq with hq | hq
        · exact ⟨hq ▸ List.mem_cons_self p t, hq ▸ hp⟩
        · exact ⟨List.mem_cons_of_mem p (ih.mp hq).1, (ih.mp hq).2⟩
      · intro ⟨hm, hne⟩
        rcases List.mem_cons.mp hm with hq | hq
        · exact hq ▸ List.mem_cons_self p _
        · exact List.mem_cons_of_mem p (ih.mpr ⟨hq, hne⟩)

theorem mem_mset {κ : Type} [DecidableEq κ] {β : Type} (k : κ) (v : β)
    (m : List (κ × β)) (q : κ × β) :
    q ∈ mset k v m ↔ q = (k, v) ∨ (q ∈ m ∧ q.1 ≠ k) := by
  unfold mset
  rw [List.mem_cons, mem_mdel]

theorem mfind?_mem {κ : Type} [DecidableEq κ] {β : Type} (k : κ) (v : β)
    (m : List (κ × β)) (h : mfind? k m = some v) : (k, v) ∈ m := by
  induction m with
  | nil => simp [mfind?] at h
  | cons p t ih =>
    unfold mfind? at h
    by_cases hp : p.1 = k
    · rw [if_pos hp] at h
      have : p = (k, v) := by
        obtain ⟨p1, p2⟩ := p
        simp at hp
        simp at h
        rw [hp, h]
      exact this ▸ List.mem_cons_self p t
    · rw [if_neg hp] at h
      exact List.mem_cons_of_mem p (ih h)

/-! ## Session registry: `ClientSession` and `BasicSOEHandler` -/

/-- Session state machine values from `soe_protocol.hpp`. -/
inductive SessionState : Type
  | Disconnected
  | Connecting
  | CRCHandshake
  | SessionHandshake
  | Connected
  | Disconnecting
deriving DecidableEq

/-- The `ClientSession` record.  The two `steady_clock` time points are
abstract `Nat` instants; the outbound queue and pending-ack buffers are
declared in the header but never touched by any code under verification,
so they are omitted.  `session_id`, `connection_id` are `uint32_t`;
sequence fields are `uint16_t`. -/
structure ClientSession : Type where
  session_id : Nat
  crc_seed : Nat
  connection_id : Nat
  state : SessionState
  server_sequence : Nat
  client_sequence : Nat
  last_acknowledged : Nat
  last_activity : Nat
  connect_time : Nat
  remote_address : String
  remote_port : Nat
deriving DecidableEq

/-- The `BasicSOEHandler` mutable state: the id index `sessions_`, the
endpoint index `endpoint_to_session_`, and the id counter
`next_session_id_` (initialised to 1). -/
structure BasicSOEHandler : Type where
  sessions_ : List (Nat × ClientSession)
  endpoint_to_session_ : List (String × Nat)
  next_session_id_ : Nat
deriving DecidableEq

/-- A freshly constructed handler: both maps empty, `next_session_id_{1}`. -/
def emptyHandler : BasicSOEHandler :=
  { sessions_ := [], endpoint_to_session_ := [], next_session_id_ := 1 }

/-- Source: `BasicSOEHandler::MakeEndpointKey`:
`addr + ":" + std::to_string(port)`. -/
def MakeEndpointKey (addr : String) (port : Nat) : String :=
  addr ++ ":" ++ toString port

/-- The `ClientSession` record built by `BasicSOEHandler::CreateSession`:
the `ClientSession` constructor sets both time points to `now` and the
defaulted fields from the header, then `CreateSession` fills id, endpoint,
state `Connecting` and `connection_id = session_id`. -/
def newSession (id : Nat) (addr : String) (port : Nat) (now : Nat) : ClientSession :=
  { session_id := id
    crc_seed := SOE_CRC_SEED
    connection_id := id
    state := SessionState.Connecting
    server_sequence := 0
    client_sequence := 0
    last_acknowledged := 0
    last_activity := now
    connect_time := now
    remote_address := addr
    remote_port := port }

/-- Source: `BasicSOEHandler::CreateSession`, the effects completed before
the fault (soe_protocol.cpp lines 257-266): the record is built with id
`next_session_id_++` (a `uint32_t` increment, wrapping modulo 2^32),
endpoint fields, state `Connecting` and `connection_id = session_id`, and
is moved into the id index `sessions_`.  The endpoint index has not been
written at this point. -/
def CreateSessionUpToFault (h : BasicSOEHandler) (addr : String) (port : Nat) (now : Nat) :
    BasicSOEHandler :=
  { sessions_ := mset h.next_session_id_ (newSession h.next_session_id_ addr port now) h.sessions_
    endpoint_to_session_ := h.endpoint_to_session_
    next_session_id_ := (h.next_session_id_ + 1) % U32 }

/-- Source: `BasicSOEHandler::CreateSession` as a whole.  Line 267,
`endpoint_to_session_[endpoint_key] = session->session_id;`, reads through
`session` — the `unique_ptr` that line 266 moved from, hence null — a
null-pointer dereference and undefined behavior, so on every execution the
call faults there and never returns: the endpoint index is never written
(line 269 dereferences the null pointer again).  The denotation is the
faulting machine state as `Except.error`; there is no returning
(`Except.ok`) outcome. -/
def CreateSession (h : BasicSOEHandler) (addr : String) (port : Nat) (now : Nat) :
    Except BasicSOEHandler BasicSOEHandler :=
  Except.error (CreateSessionUpToFault h addr port now)

/-- Intended semantics of `BasicSOEHandler::CreateSession`: the post-state
lines 256-271 evidently mean to establish — line 267 read as storing into
the endpoint index the id that line 266 just stored into the id index.
This is what spec section 4.2 describes and what the repository's own
`TestBasicSOEHandler` (test_soe_protocol.cpp lines 83-106) asserts: after
the call the session is retrievable through both indices.  The actual
function faults before completing it (see `CreateSession`); this total
version supplies the dispatcher's session-request branch with a state so
that the dispatch paths that do not create sessions can be analysed, and
serves as a fixture builder for registry states. -/
def CreateSessionIntended (h : BasicSOEHandler) (addr : String) (port : Nat) (now : Nat) :
    BasicSOEHandler :=
  { sessions_ := mset h.next_session_id_ (newSession h.next_session_id_ addr port now) h.sessions_
    endpoint_to_session_ :=
      mset (MakeEndpointKey addr port) h.next_session_id_ h.endpoint_to_session_
    next_session_id_ := (h.next_session_id_ + 1) % U32 }

/-- Source: `BasicSOEHandler::DestroySession`: if the id is present, erase the
session's endpoint key from the endpoint index and the id from the id
index; otherwise a no-op. -/
def DestroySession (h : BasicSOEHandler) (id : Nat) : BasicSOEHandler :=
  match mfind? id h.sessions_ with
  | none => h
  | some s =>
    { h with
      endpoint_to_session_ :=
        mdel (MakeEndpointKey s.remote_address s.remote_port) h.endpoint_to_session_
      sessions_ := mdel id h.sessions_ }

/-- Source: `BasicSOEHandler::GetSession`: id-index lookup. -/
def GetSession (h : BasicSOEHandler) (id : Nat) : Option ClientSession :=
  mfind? id h.sessions_

/-- The pointer produced by `GetSessionByEndpoint`: the id-index slot (key
and record) reached through the endpoint index, or `none` when either
lookup fails. -/
def lookupEndpoint (h : BasicSOEHandler) (addr : String) (port : Nat) :
    Option (Nat × ClientSession) :=
  (mfind? (MakeEndpointKey addr port) h.endpoint_to_session_).bind
    (fun id => (mfind? id h.sessions_).map (fun s => (id, s)))

/-- Source: `BasicSOEHandler::GetSessionByEndpoint`: endpoint-index lookup
followed by `GetSession`. -/
def GetSessionByEndpoint (h : BasicSOEHandler) (addr : String) (port : Nat) :
    Option ClientSession :=
  Option.map Prod.snd (lookupEndpoint h addr port)

/-- Mutation of the session stored in a given id-index slot, as performed
through the `ClientSession*` the C++ handlers receive. -/
def updateSession (h : BasicSOEHandler) (id : Nat) (f : ClientSession → ClientSession) :
    BasicSOEHandler :=
  match mfind? id h.sessions_ with
  | none => h
  | some s => { h with sessions_ := mset id (f s) h.sessions_ }

/-- Source: `BasicSOEHandler::HandleSessionRequest`: unconditionally calls
`CreateSession`, re-resolves the endpoint, and marks the found session
`Connected`.  In the source the call faults inside `CreateSession` (line
267), so execution never reaches the endpoint re-resolution or the
`Connected` assignment at line 322; this definition composes with
`CreateSessionIntended` to keep the dispatcher total, and the faulting
behavior itself is analysed through `CreateSession` and
`CreateSessionUpToFault`.  No reply packet is built or sent on any path
(the body only logs; the handshake response is left as a TODO in the
source), and the request's payload (its connection id) is never read. -/
def HandleSessionRequest (h : BasicSOEHandler) (addr : String) (port : Nat) (now : Nat) :
    BasicSOEHandler :=
  let h1 := CreateSessionIntended h addr port now
  match lookupEndpoint h1 addr port with
  | none => h1
  | some p => updateSession h1 p.1 (fun s => { s with state := SessionState.Connected })

/-- Source: `BasicSOEHandler::HandleDataPacket`: refreshes `last_activity` and
stores the packet's sequence field into `client_sequence`. -/
def HandleDataPacket (h : BasicSOEHandler) (id : Nat) (data : List Nat) (now : Nat) :
    BasicSOEHandler :=
  updateSession h id
    (fun s => { s with last_activity := now, client_sequence := GetSequence data })

/-- Source: `BasicSOEHandler::HandlePing`: refreshes `last_activity` only. -/
def HandlePing (h : BasicSOEHandler) (id : Nat) (now : Nat) : BasicSOEHandler :=
  updateSession h id (fun s => { s with last_activity := now })

/-- Source: `BasicSOEHandler::HandleAck`: refreshes `last_activity` and stores the
packet's sequence field into `last_acknowledged`. -/
def HandleAck (h : BasicSOEHandler) (id : Nat) (data : List Nat) (now : Nat) :
    BasicSOEHandler :=
  updateSession h id
    (fun s => { s with last_activity := now, last_acknowledged := GetSequence data })

/-- Source: `BasicSOEHandler::HandleDisconnect`: marks the session
`Disconnecting`; removal is deferred to the next sweep.  Note that
`last_activity` is not refreshed here. -/
def HandleDisconnect (h : BasicSOEHandler) (id : Nat) : BasicSOEHandler :=
  updateSession h id (fun s => { s with state := SessionState.Disconnecting })

/-- Source: `BasicSOEHandler::ProcessIncomingPacket`: rejects datagrams shorter
than 2 bytes, then dispatches on the opcode; handlers that need a session
silently skip their body when the endpoint is unknown but the function
still returns true for a recognised opcode.  The result is the mutated
handler state, the `bool` return value, and the list of datagrams handed
to the transport for sending — always empty, because no handler in the
source builds or sends a reply (`udp_server.cpp` discards the `bool` and
sends nothing either).  The session-request branch is total here via
`HandleSessionRequest` / `CreateSessionIntended`; in the source that
branch faults inside `CreateSession` (see there), which the dispatch
paths analysed below never reach. -/
def ProcessIncomingPacket (h : BasicSOEHandler) (data : List Nat) (addr : String)
    (port : Nat) (now : Nat) : BasicSOEHandler × Bool × List (List Nat) :=
  if data.length < 2 then (h, false, [])
  else if GetOpcode data = SOE_SESSION_REQUEST then
    (HandleSessionRequest h addr port now, true, [])
  else if GetOpcode data = SOE_PING then
    match lookupEndpoint h addr port with
    | some p => (HandlePing h p.1 now, true, [])
    | none => (h, true, [])
  else if GetOpcode data = SOE_DATA_CHANNEL_A ∨ GetOpcode data = SOE_DATA_CHANNEL_B ∨
      GetOpcode data = SOE_DATA_CHANNEL_C ∨ GetOpcode data = SOE_DATA_CHANNEL_D then
    match lookupEndpoint h addr port with
    | some p => (HandleDataPacket h p.1 data now, true, [])
    | none => (h, true, [])
  else if GetOpcode data = SOE_ACK_A ∨ GetOpcode data = SOE_ACK_B ∨
      GetOpcode data = SOE_ACK_C ∨ GetOpcode data = SOE_ACK_D then
    match lookupEndpoint h addr port with
    | some p => (HandleAck h p.1 data now, true, [])
    | none => (h, true, [])
  else if GetOpcode data = SOE_DISCONNECT then
    match lookupEndpoint h addr port with
    | some p => (HandleDisconnect h p.1, true, [])
    | none => (h, true, [])
  else (h, false, [])

/-- Source: `BasicSOEHandler::CreateSessionResponse`: opcode, connection id, crc
seed, three fixed bytes `2, 1, 4`, then the maximum packet size. -/
def CreateSessionResponse (connection_id : Nat) (crc_seed : Nat) : List Nat :=
  WriteUInt32
    (WriteUInt8
      (WriteUInt8
        (WriteUInt8
          (WriteUInt32 (WriteUInt32 (WriteUInt16 [] SOE_SESSION_RESPONSE) connection_id)
            crc_seed)
          2)
        1)
      4)
    SOE_MAX_PACKET_SIZE

/-- Source: `BasicSOEHandler::CleanupTimedOutSessions` (the body of `Update`):
collects every session whose state is `Disconnecting` or whose
`last_activity` lies more than the idle timeout before `now`, then
destroys each collected id.  The source fixes the timeout at 5 minutes;
it is a parameter here, matching `sweep(now, idle_timeout)`. -/
def CleanupTimedOutSessions (h : BasicSOEHandler) (now : Nat) (timeout : Nat) :
    BasicSOEHandler :=
  let to_remove := (h.sessions_.filter
    (fun p => decide (p.2.state = SessionState.Disconnecting ∨
      now - p.2.last_activity > timeout))).map Prod.fst
  to_remove.foldl DestroySession h

/-! ## Index consistency invariant -/

/-- The endpoint key recorded inside a session. -/
def sessionKey (s : ClientSession) : String :=
  MakeEndpointKey s.remote_address s.remote_port

/-- Mutual consistency of the two indices: every id-index entry is
reachable through exactly one endpoint-index entry (its own endpoint
key), and every endpoint-index entry resolves to a live session whose
recorded endpoint is that very key. -/
def MutuallyConsistent (h : BasicSOEHandler) : Prop :=
  (∀ p ∈ h.sessions_,
      mfind? (sessionKey p.2) h.endpoint_to_session_ = some p.1 ∧
      ∀ q ∈ h.endpoint_to_session_, q.2 = p.1 → q.1 = sessionKey p.2) ∧
  (∀ q ∈ h.endpoint_to_session_,
      Option.map sessionKey (mfind? q.2 h.sessions_) = some q.1)

instance (h : BasicSOEHandler) : Decidable (MutuallyConsistent h) := by
  unfold MutuallyConsistent
  infer_instance

/-- Well-formedness: both indices have pairwise distinct keys and are
mutually consistent. -/
def WF (h : BasicSOEHandler) : Prop :=
  (h.sessions_.map Prod.fst).Nodup ∧
  (h.endpoint_to_session_.map Prod.fst).Nodup ∧
  MutuallyConsistent h

instance (h : BasicSOEHandler) : Decidable (WF h) := by
  unfold WF
  infer_instance

theorem mdel_sublist {κ : Type} [DecidableEq κ] {β : Type} (k : κ) (m : List (κ × β)) :
    List.Sublist (mdel k m) m := by
  induction m with
  | nil => simp [mdel]
  | cons p t ih =>
    unfold mdel
    by_cases hp : p.1 = k
    · rw [if_pos hp]
      exact ih.cons p
    · rw [if_neg hp]
      exact ih.cons₂ p

theorem mem_keys_mdel {κ : Type} [DecidableEq κ] {β : Type} (k x : κ) (m : List (κ × β)) :
    x ∈ (mdel k m).map Prod.fst ↔ x ∈ m.map Prod.fst ∧ x ≠ k := by
  simp only [List.mem_map]
  constructor
  · rintro ⟨q, hq, rfl⟩
    have hm := (mem_mdel k m q).mp hq
    exact ⟨⟨q, hm.1, rfl⟩, hm.2⟩
  · rintro ⟨⟨q, hq, rfl⟩, hne⟩
    exact ⟨q, (mem_mdel k m q).mpr ⟨hq, hne⟩, rfl⟩

theorem keys_mdel_nodup {κ : Type} [DecidableEq κ] {β : Type} (k : κ) (m : List (κ × β))
    (hm : (m.map Prod.fst).Nodup) : ((mdel k m).map Prod.fst).Nodup :=
  ((mdel_sublist k m).map Prod.fst).nodup hm

theorem keys_mset_nodup {κ : Type} [DecidableEq κ] {β : Type} (k : κ) (v : β)
    (m : List (κ × β)) (hm : (m.map Prod.fst).Nodup) :
    ((mset k v m).map Prod.fst).Nodup := by
  unfold mset
  rw [List.map_cons, List.nodup_cons]
  refine ⟨?_, keys_mdel_nodup k m hm⟩
  intro hmem
  exact ((mem_keys_mdel k k m).mp hmem).2 rfl

theorem mfind?_of_mem_nodup {κ : Type} [DecidableEq κ] {β : Type} (m : List (κ × β))
    (hn : (m.map Prod.fst).Nodup) (q : κ × β) (hq : q ∈ m) : mfind? q.1 m = some q.2 := by
  induction m with
  | nil => simp at hq
  | cons p t ih =>
    rw [List.map_cons, List.nodup_cons] at hn
    rcases List.mem_cons.mp hq with hq | hq
    · rw [hq, mfind?_cons, if_pos rfl]
    · have hne : p.1 ≠ q.1 := by
        intro hc
        exact hn.1 (hc ▸ List.mem_map.mpr ⟨q, hq, rfl⟩)
      rw [mfind?_cons, if_neg hne]
      exact ih hn.2 hq

theorem WF_empty : WF emptyHandler := by
  refine ⟨List.nodup_nil, List.nodup_nil, ?_, ?_⟩
  · intro p hp
    simp [emptyHandler] at hp
  · intro q hq
    simp [emptyHandler] at hq

/-- Under consistency, an endpoint lookup fails exactly when the endpoint
index has no entry for the key (no dangling entries exist). -/
theorem lookupEndpoint_none_iff (h : BasicSOEHandler) (hc : MutuallyConsistent h)
    (addr : String) (port : Nat) :
    lookupEndpoint h addr port = none ↔
      mfind? (MakeEndpointKey addr port) h.endpoint_to_session_ = none := by
  unfold lookupEndpoint
  cases e : mfind? (MakeEndpointKey addr port) h.endpoint_to_session_ with
  | none => simp
  | some id =>
    have hq := hc.2 (MakeEndpointKey addr port, id) (mfind?_mem _ _ _ e)
    simp only [] at hq
    cases es : mfind? id h.sessions_ with
    | none =>
      rw [es] at hq
      simp at hq
    | some s =>
      simp [es]

/-- Lemma: `DestroySession` preserves well-formedness. -/
theorem WF_destroy (h : BasicSOEHandler) (id : Nat) (hwf : WF h) :
    WF (DestroySession h id) := by
  obtain ⟨hn1, hn2, hc1, hc2⟩ := hwf
  cases e : mfind? id h.sessions_ with
  | none =>
    have hD : DestroySession h id = h := by
      unfold DestroySession
      rw [e]
    rw [hD]
    exact ⟨hn1, hn2, hc1, hc2⟩
  | some s =>
    have hs : (DestroySession h id).sessions_ = mdel id h.sessions_ := by
      unfold DestroySession
      rw [e]
    have he : (DestroySession h id).endpoint_to_session_ =
        mdel (sessionKey s) h.endpoint_to_session_ := by
      unfold DestroySession
      rw [e]
      exact rfl
    have hmem : (id, s) ∈ h.sessions_ := mfind?_mem _ _ _ e
    have hkey := (hc1 (id, s) hmem).1
    refine ⟨?_, ?_, ?_, ?_⟩
    · rw [hs]
      exact keys_mdel_nodup _ _ hn1
    · rw [he]
      exact keys_mdel_nodup _ _ hn2
    · intro p hp
      rw [hs] at hp
      rw [he]
      obtain ⟨hp, hpne⟩ := (mem_mdel _ _ _).mp hp
      have h1 := hc1 p hp
      have hkne : sessionKey p.2 ≠ sessionKey s := by
        intro hc
        rw [hc, hkey] at h1
        exact hpne (Option.some.inj h1.1).symm
      constructor
      · rw [mfind?_mdel, if_neg hkne]
        exact h1.1
      · intro q hq hq2
        exact h1.2 q ((mem_mdel _ _ _).mp hq).1 hq2
    · intro q hq
      rw [he] at hq
      rw [hs]
      obtain ⟨hq, hqne⟩ := (mem_mdel _ _ _).mp hq
      have h2 := hc2 q hq
      have hidne : q.2 ≠ id := by
        intro hc
        rw [hc, e] at h2
        exact hqne (Option.some.inj h2).symm
      rw [mfind?_mdel, if_neg hidne]
      exact h2

/-- Lemma: `updateSession` preserves well-formedness whenever the update leaves
the session's endpoint fields unchanged. -/
theorem WF_update (h : BasicSOEHandler) (id : Nat) (f : ClientSession → ClientSession)
    (hf : ∀ s, sessionKey (f s) = sessionKey s) (hwf : WF h) :
    WF (updateSession h id f) := by
  obtain ⟨hn1, hn2, hc1, hc2⟩ := hwf
  cases e : mfind? id h.sessions_ with
  | none =>
    have hU : updateSession h id f = h := by
      unfold updateSession
      rw [e]
    rw [hU]
    exact ⟨hn1, hn2, hc1, hc2⟩
  | some s =>
    have hs : (updateSession h id f).sessions_ = mset id (f s) h.sessions_ := by
      unfold updateSession
      rw [e]
    have he : (updateSession h id f).endpoint_to_session_ = h.endpoint_to_session_ := by
      unfold updateSession
      rw [e]
    have hmem : (id, s) ∈ h.sessions_ := mfind?_mem _ _ _ e
    have hold := hc1 (id, s) hmem
    refine ⟨?_, ?_, ?_, ?_⟩
    · rw [hs]
      exact keys_mset_nodup _ _ _ hn1
    · rw [he]
      exact hn2
    · intro p hp
      rw [hs] at hp
      rw [he]
      rcases (mem_mset _ _ _ _).mp hp with hp | ⟨hp, hpne⟩
      · subst hp
        rw [show sessionKey ((id, f s).2) = sessionKey s from hf s]
        exact hold
      · exact hc1 p hp
    · intro q hq
      rw [he] at hq
      rw [hs]
      have h2 := hc2 q hq
      by_cases hid : q.2 = id
      · rw [hid, mfind?_mset, if_pos rfl]
        rw [hid, e] at h2
        rw [show Option.map sessionKey (some (f s)) = some (sessionKey (f s)) from rfl, hf s]
        exact h2
      · rw [mfind?_mset, if_neg hid]
        exact h2

/-! ## Claim C6: dropped datagrams leave the engine state unchanged -/

/-- The opcodes with a case in `ProcessIncomingPacket`'s switch. -/
def handledOpcodes : List Nat :=
  [SOE_SESSION_REQUEST, SOE_PING, SOE_DATA_CHANNEL_A, SOE_DATA_CHANNEL_B,
   SOE_DATA_CHANNEL_C, SOE_DATA_CHANNEL_D, SOE_ACK_A, SOE_ACK_B, SOE_ACK_C,
   SOE_ACK_D, SOE_DISCONNECT]

/-- C6: a datagram whose opcode has no switch case (from any endpoint,
known or unknown), or whose opcode is not session-request and whose
endpoint has no session, leaves the whole handler state — sessions,
endpoint index, id counter, hence every session's state, sequence
counters and `last_activity` — unchanged, and creates no session. -/
theorem C6_dropped_datagrams_mutate_nothing (h : BasicSOEHandler) (data : List Nat)
    (addr : String) (port now : Nat)
    (hdrop : GetOpcode data ∉ handledOpcodes ∨
      (GetOpcode data ≠ SOE_SESSION_REQUEST ∧ lookupEndpoint h addr port = none)) :
    (ProcessIncomingPacket h data addr port now).1 = h := by
  unfold ProcessIncomingPacket
  by_cases h2 : data.length < 2
  · rw [if_pos h2]
  · rw [if_neg h2]
    rcases hdrop with hnot | ⟨hne, hnone⟩
    · simp only [handledOpcodes, List.mem_cons, List.not_mem_nil, or_false, not_or] at hnot
      obtain ⟨n1, n2, n3, n4, n5, n6, n7, n8, n9, n10, n11⟩ := hnot
      rw [if_neg n1, if_neg n2,
        if_neg (fun hc => hc.elim n3 (fun hc => hc.elim n4 (fun hc => hc.elim n5 n6))),
        if_neg (fun hc => hc.elim n7 (fun hc => hc.elim n8 (fun hc => hc.elim n9 n10))),
        if_neg n11]
    · rw [if_neg hne]
      by_cases hping : GetOpcode data = SOE_PING
      · rw [if_pos hping]
        simp [hnone]
      · rw [if_neg hping]
        by_cases hdat : GetOpcode data = SOE_DATA_CHANNEL_A ∨
            GetOpcode data = SOE_DATA_CHANNEL_B ∨ GetOpcode data = SOE_DATA_CHANNEL_C ∨
            GetOpcode data = SOE_DATA_CHANNEL_D
        · rw [if_pos hdat]
          simp [hnone]
        · rw [if_neg hdat]
          by_cases hack : GetOpcode data = SOE_ACK_A ∨ GetOpcode data = SOE_ACK_B ∨
              GetOpcode data = SOE_ACK_C ∨ GetOpcode data = SOE_ACK_D
          · rw [if_pos hack]
            simp [hnone]
          · rw [if_neg hack]
            by_cases hdis : GetOpcode data = SOE_DISCONNECT
            · rw [if_pos hdis]
              simp [hnone]
            · rw [if_neg hdis]

/-- C6 witness: an unknown opcode (0x99) sent from an endpoint that has a
live session changes nothing. -/
theorem C6_witness :
    (ProcessIncomingPacket (CreateSessionIntended emptyHandler "a" 1 0) [(153 : Nat), 0] "a" 1 5).1 =
      CreateSessionIntended emptyHandler "a" 1 0 :=
  C6_dropped_datagrams_mutate_nothing _ _ _ _ _ (Or.inl (by decide))

/-! ## Claim C2: creating a session for an endpoint that already has one -/

theorem lookupEndpoint_some (h : BasicSOEHandler) (addr : String) (port i : Nat)
    (s : ClientSession) (hl : lookupEndpoint h addr port = some (i, s)) :
    mfind? (MakeEndpointKey addr port) h.endpoint_to_session_ = some i ∧
    mfind? i h.sessions_ = some s := by
  unfold lookupEndpoint at hl
  cases e : mfind? (MakeEndpointKey addr port) h.endpoint_to_session_ with
  | none =>
    rw [e] at hl
    exact Option.noConfusion hl
  | some id =>
    rw [e] at hl
    simp only [Option.some_bind] at hl
    cases es : mfind? id h.sessions_ with
    | none =>
      rw [es] at hl
      exact Option.noConfusion hl
    | some s2 =>
      rw [es] at hl
      simp only [Option.map_some', Option.some.injEq, Prod.mk.injEq] at hl
      obtain ⟨rfl, rfl⟩ := hl
      exact ⟨rfl, es⟩

theorem lookupEndpoint_of_finds (h : BasicSOEHandler) (addr : String) (port i : Nat)
    (s : ClientSession)
    (he : mfind? (MakeEndpointKey addr port) h.endpoint_to_session_ = some i)
    (hs : mfind? i h.sessions_ = some s) :
    lookupEndpoint h addr port = some (i, s) := by
  unfold lookupEndpoint
  rw [he]
  simp only [Option.some_bind]
  rw [hs]
  rfl

/-- C2: evaluation of the creation path: `CreateSession` contains no
reuse check at all — from every handler state it allocates the next
counter id and inserts a fresh record under it before faulting on the
moved-from pointer at line 267, with the endpoint index never written.
In particular no endpoint ever acquires a live, endpoint-reachable
session, so the reuse scenario never arises in the source. -/
theorem C2_create_always_allocates_then_faults (h : BasicSOEHandler) (addr : String)
    (port now : Nat) :
    CreateSession h addr port now =
      Except.error (CreateSessionUpToFault h addr port now) ∧
    GetSession (CreateSessionUpToFault h addr port now) h.next_session_id_ =
      some (newSession h.next_session_id_ addr port now) ∧
    (CreateSessionUpToFault h addr port now).endpoint_to_session_ =
      h.endpoint_to_session_ := by
  refine ⟨rfl, ?_, rfl⟩
  unfold GetSession
  rw [show (CreateSessionUpToFault h addr port now).sessions_ =
    mset h.next_session_id_ (newSession h.next_session_id_ addr port now) h.sessions_
    from rfl, mfind?_mset, if_pos rfl]

/-! ## Claim C3: session-request handling and the session-response builder -/

/-- Reassembling the four little-endian bytes of a 32-bit value yields the
value reduced modulo 2^32. -/
theorem four_byte_or (c : Nat) :
    (c &&& 255) ||| (((c >>> 8) &&& 255) <<< 8) ||| (((c >>> 16) &&& 255) <<< 16) |||
      (((c >>> 24) &&& 255) <<< 24) = c % U32 := by
  have h255 : (255 : Nat) = 2 ^ 8 - 1 := by norm_num
  have hU : U32 = 2 ^ 32 := by norm_num [U32]
  rw [hU]
  apply Nat.eq_of_testBit_eq
  intro i
  simp only [Nat.testBit_or, h255, Nat.and_pow_two_sub_one_eq_mod,
    Nat.testBit_mod_two_pow, Nat.testBit_shiftLeft, Nat.testBit_shiftRight]
  by_cases h1 : i < 8
  · simp [eq_true h1, eq_false (by omega : ¬ 8 ≤ i), eq_false (by omega : ¬ 16 ≤ i),
      eq_false (by omega : ¬ 24 ≤ i), eq_true (by omega : i < 32)]
  · by_cases h2 : i < 16
    · have e1 : 8 + (i - 8) = i := by omega
      simp [eq_false h1, eq_true (by omega : 8 ≤ i), eq_true (by omega : i - 8 < 8), e1,
        eq_false (by omega : ¬ 16 ≤ i), eq_false (by omega : ¬ 24 ≤ i),
        eq_true (by omega : i < 32)]
    · by_cases h3 : i < 24
      · have e2 : 16 + (i - 16) = i := by omega
        simp [eq_false h1, eq_false (by omega : ¬ i - 8 < 8), eq_true (by omega : 16 ≤ i),
          eq_true (by omega : i - 16 < 8), e2, eq_false (by omega : ¬ 24 ≤ i),
          eq_true (by omega : i < 32)]
      · by_cases h4 : i < 32
        · have e3 : 24 + (i - 24) = i := by omega
          simp [eq_false h1, eq_false (by omega : ¬ i - 8 < 8),
            eq_false (by omega : ¬ i - 16 < 8), eq_true (by omega : 24 ≤ i),
            eq_true (by omega : i - 24 < 8), e3, eq_true h4]
        · simp [eq_false h1, eq_false (by omega : ¬ i - 8 < 8),
            eq_false (by omega : ¬ i - 16 < 8), eq_false (by omega : ¬ i - 24 < 8),
            eq_false h4]

/-- The wire bytes of `CreateSessionResponse`. -/
theorem CreateSessionResponse_bytes (cid seed : Nat) :
    CreateSessionResponse cid seed =
      [2, 0, cid &&& 255, (cid >>> 8) &&& 255, (cid >>> 16) &&& 255, (cid >>> 24) &&& 255,
       seed &&& 255, (seed >>> 8) &&& 255, (seed >>> 16) &&& 255, (seed >>> 24) &&& 255,
       2, 1, 4, 240, 1, 0, 0] := by
  simp [CreateSessionResponse, WriteUInt16, WriteUInt32, WriteUInt8,
    SOE_SESSION_RESPONSE, SOE_MAX_PACKET_SIZE]
  decide

/-- C3: evaluation of the session-request path at the handshake scenario
(an unknown endpoint; the request's connection id plays no role because it
is never read): the call faults inside `CreateSession` before the
`Connected` assignment at line 322, so at the fault the single inserted
record is still `Connecting`, is not retrievable through the endpoint
index, and carries the server-assigned connection id 1 rather than the
request's 0xAABBCCDD; and no session-response exists anywhere — the
builder `CreateSessionResponse` has no caller in the source and no
handler sends. -/
theorem C3_session_request_faults_before_connected :
    CreateSession emptyHandler "e" 1 0 =
      Except.error (CreateSessionUpToFault emptyHandler "e" 1 0) ∧
    Option.map ClientSession.state
      (GetSession (CreateSessionUpToFault emptyHandler "e" 1 0) 1) =
      some SessionState.Connecting ∧
    GetSessionByEndpoint (CreateSessionUpToFault emptyHandler "e" 1 0) "e" 1 = none ∧
    Option.map ClientSession.connection_id
      (GetSession (CreateSessionUpToFault emptyHandler "e" 1 0) 1) ≠ some 0xAABBCCDD :=
  ⟨rfl, by decide, by decide, by decide⟩

/-! ## Dispatch and session-update helper lemmas -/

theorem updateSession_eq (h : BasicSOEHandler) (id : Nat)
    (f : ClientSession → ClientSession) (s : ClientSession)
    (hs : mfind? id h.sessions_ = some s) :
    updateSession h id f = { h with sessions_ := mset id (f s) h.sessions_ } := by
  unfold updateSession
  rw [hs]

theorem updateSession_endpoint (h : BasicSOEHandler) (id : Nat)
    (f : ClientSession → ClientSession) :
    (updateSession h id f).endpoint_to_session_ = h.endpoint_to_session_ := by
  unfold updateSession
  cases mfind? id h.sessions_ <;> rfl

theorem GetSession_update_self (h : BasicSOEHandler) (id : Nat)
    (f : ClientSession → ClientSession) (s : ClientSession)
    (hs : mfind? id h.sessions_ = some s) :
    GetSession (updateSession h id f) id = some (f s) := by
  rw [updateSession_eq h id f s hs]
  unfold GetSession
  rw [show ({ h with sessions_ := mset id (f s) h.sessions_ } : BasicSOEHandler).sessions_ =
    mset id (f s) h.sessions_ from rfl, mfind?_mset, if_pos rfl]

theorem GetSession_update_other (h : BasicSOEHandler) (id id' : Nat)
    (f : ClientSession → ClientSession) (hne : id' ≠ id) :
    GetSession (updateSession h id f) id' = GetSession h id' := by
  unfold updateSession
  cases e : mfind? id h.sessions_ with
  | none => rfl
  | some s =>
    unfold GetSession
    rw [show ({ h with sessions_ := mset id (f s) h.sessions_ } : BasicSOEHandler).sessions_ =
      mset id (f s) h.sessions_ from rfl, mfind?_mset, if_neg hne]

theorem process_data_eq (h : BasicSOEHandler) (data : List Nat) (addr : String)
    (port now i : Nat) (s : ClientSession)
    (hlen : ¬ data.length < 2)
    (hop : GetOpcode data = SOE_DATA_CHANNEL_A ∨ GetOpcode data = SOE_DATA_CHANNEL_B ∨
      GetOpcode data = SOE_DATA_CHANNEL_C ∨ GetOpcode data = SOE_DATA_CHANNEL_D)
    (hlk : lookupEndpoint h addr port = some (i, s)) :
    ProcessIncomingPacket h data addr port now = (HandleDataPacket h i data now, true, []) := by
  have hne1 : GetOpcode data ≠ SOE_SESSION_REQUEST := by
    rcases hop with h' | h' | h' | h' <;> rw [h'] <;> decide
  have hne2 : GetOpcode data ≠ SOE_PING := by
    rcases hop with h' | h' | h' | h' <;> rw [h'] <;> decide
  unfold ProcessIncomingPacket
  rw [if_neg hlen, if_neg hne1, if_neg hne2, if_pos hop, hlk]

theorem process_ack_eq (h : BasicSOEHandler) (data : List Nat) (addr : String)
    (port now i : Nat) (s : ClientSession)
    (hlen : ¬ data.length < 2)
    (hop : GetOpcode data = SOE_ACK_A ∨ GetOpcode data = SOE_ACK_B ∨
      GetOpcode data = SOE_ACK_C ∨ GetOpcode data = SOE_ACK_D)
    (hlk : lookupEndpoint h addr port = some (i, s)) :
    ProcessIncomingPacket h data addr port now = (HandleAck h i data now, true, []) := by
  have hne1 : GetOpcode data ≠ SOE_SESSION_REQUEST := by
    rcases hop with h' | h' | h' | h' <;> rw [h'] <;> decide
  have hne2 : GetOpcode data ≠ SOE_PING := by
    rcases hop with h' | h' | h' | h' <;> rw [h'] <;> decide
  have hne3 : ¬ (GetOpcode data = SOE_DATA_CHANNEL_A ∨ GetOpcode data = SOE_DATA_CHANNEL_B ∨
      GetOpcode data = SOE_DATA_CHANNEL_C ∨ GetOpcode data = SOE_DATA_CHANNEL_D) := by
    rcases hop with h' | h' | h' | h' <;> rw [h'] <;> decide
  unfold ProcessIncomingPacket
  rw [if_neg hlen, if_neg hne1, if_neg hne2, if_neg hne3, if_pos hop, hlk]

theorem process_disconnect_eq (h : BasicSOEHandler) (data : List Nat) (addr : String)
    (port now i : Nat) (s : ClientSession)
    (hlen : ¬ data.length < 2)
    (hop : GetOpcode data = SOE_DISCONNECT)
    (hlk : lookupEndpoint h addr port = some (i, s)) :
    ProcessIncomingPacket h data addr port now = (HandleDisconnect h i, true, []) := by
  unfold ProcessIncomingPacket
  rw [if_neg hlen, if_neg (by rw [hop]; decide), if_neg (by rw [hop]; decide),
    if_neg (by rw [hop]; decide), if_neg (by rw [hop]; decide), if_pos hop, hlk]

/-! ## Claim C5: minimum header sizes -/

/-- C5 (claim as stated): a sequenced datagram (data- or ack-channel)
shorter than 4 bytes is rejected before any session field is mutated.
False: only the 2-byte minimum is enforced.  A 2-byte data-channel-A
packet from an endpoint with a session is dispatched (the step returns
true) and refreshes the session's `last_activity` to the processing
time. -/
theorem C5_counterexample :
    (ProcessIncomingPacket (CreateSessionIntended emptyHandler "e" 1 0) [9, 0] "e" 1 5).2.1 = true ∧
    GetSession (ProcessIncomingPacket (CreateSessionIntended emptyHandler "e" 1 0) [9, 0] "e" 1 5).1 1 =
      some { newSession 1 "e" 1 0 with last_activity := 5, client_sequence := 0 } := by
  decide

/-- C5 (amended): datagrams shorter than 2 bytes are rejected before
anything is interpreted or mutated; but a sequenced datagram of length
2 or 3 from a known endpoint is NOT rejected — its sequence field reads
as 0 (`GetSequence` never reads out of bounds) and the session is updated
with that zero and a fresh `last_activity`. -/
theorem C5_short_datagram_policy (h : BasicSOEHandler) (data : List Nat) (addr : String)
    (port now : Nat) :
    (data.length < 2 → ProcessIncomingPacket h data addr port now = (h, false, [])) ∧
    (data.length < 4 → GetSequence data = 0) ∧
    (∀ i s, ¬ data.length < 2 → data.length < 4 →
      lookupEndpoint h addr port = some (i, s) →
      ((GetOpcode data = SOE_DATA_CHANNEL_A ∨ GetOpcode data = SOE_DATA_CHANNEL_B ∨
        GetOpcode data = SOE_DATA_CHANNEL_C ∨ GetOpcode data = SOE_DATA_CHANNEL_D) →
        (ProcessIncomingPacket h data addr port now).2.1 = true ∧
        GetSession (ProcessIncomingPacket h data addr port now).1 i =
          some { s with last_activity := now, client_sequence := 0 }) ∧
      ((GetOpcode data = SOE_ACK_A ∨ GetOpcode data = SOE_ACK_B ∨
        GetOpcode data = SOE_ACK_C ∨ GetOpcode data = SOE_ACK_D) →
        (ProcessIncomingPacket h data addr port now).2.1 = true ∧
        GetSession (ProcessIncomingPacket h data addr port now).1 i =
          some { s with last_activity := now, last_acknowledged := 0 })) := by
  have hseq : data.length < 4 → GetSequence data = 0 := by
    intro h4
    unfold GetSequence
    rw [if_pos h4]
  refine ⟨?_, hseq, ?_⟩
  · intro h2
    unfold ProcessIncomingPacket
    rw [if_pos h2]
  · intro i s hlen h4 hlk
    have hes := (lookupEndpoint_some h addr port i s hlk).2
    constructor
    · intro hop
      rw [process_data_eq h data addr port now i s hlen hop hlk]
      refine ⟨rfl, ?_⟩
      unfold HandleDataPacket
      rw [show ((updateSession h i
          (fun s => { s with last_activity := now, client_sequence := GetSequence data }),
          true, ([] : List (List Nat))).1) = updateSession h i
          (fun s => { s with last_activity := now, client_sequence := GetSequence data })
        from rfl]
      rw [GetSession_update_self h i _ s hes, hseq h4]
    · intro hop
      rw [process_ack_eq h data addr port now i s hlen hop hlk]
      refine ⟨rfl, ?_⟩
      unfold HandleAck
      rw [show ((updateSession h i
          (fun s => { s with last_activity := now, last_acknowledged := GetSequence data }),
          true, ([] : List (List Nat))).1) = updateSession h i
          (fun s => { s with last_activity := now, last_acknowledged := GetSequence data })
        from rfl]
      rw [GetSession_update_self h i _ s hes, hseq h4]

/-- C5 witness: a 3-byte ack packet from a live endpoint. -/
theorem C5_witness :
    GetSession
      (ProcessIncomingPacket (CreateSessionIntended emptyHandler "f" 2 0) [17, 0, 200] "f" 2 9).1 1 =
      some { newSession 1 "f" 2 0 with last_activity := 9, last_acknowledged := 0 } :=
  (((C5_short_datagram_policy (CreateSessionIntended emptyHandler "f" 2 0) [17, 0, 200] "f" 2 9).2.2
    1 (newSession 1 "f" 2 0) (by decide) (by decide) (by decide)).2 (by decide)).2

/-! ## Claim C9: session id allocation -/

/-- C9: evaluation of id allocation: every create faults after allocating
a single id — the record stored under the old `next_session_id_` — so no
execution of the source completes two creates (its own
`TestBasicSOEHandler` asserts two completed creates receive distinct
ids); and the counter update that does execute before the fault is the
`uint32_t` increment modulo 2^32, whose wrap-around at 2^32 is silent. -/
theorem C9_create_faults_after_one_id (h : BasicSOEHandler) (addr : String)
    (port now : Nat) :
    CreateSession h addr port now =
      Except.error (CreateSessionUpToFault h addr port now) ∧
    (CreateSessionUpToFault h addr port now).next_session_id_ =
      (h.next_session_id_ + 1) % U32 ∧
    ((4294967295 : Nat) + 1) % U32 = 0 :=
  ⟨rfl, rfl, by decide⟩

/-! ## Claim C1: index consistency of the two registry indices -/

/-- C1: evaluation of the create path at the failing input — the first
step of the repository's own `TestBasicSOEHandler`, a create for endpoint
127.0.0.1:12345 on a fresh handler: the call faults at line 267 after the
id-index insert and before the endpoint-index write, so the state at the
fault holds the new session in the id index with no endpoint-index entry
mapping to it — the two indices are not mutually consistent — and no
post-create state exists at all. -/
theorem C1_create_faults_with_inconsistent_indices :
    CreateSession emptyHandler "127.0.0.1" 12345 0 =
      Except.error (CreateSessionUpToFault emptyHandler "127.0.0.1" 12345 0) ∧
    GetSession (CreateSessionUpToFault emptyHandler "127.0.0.1" 12345 0) 1 =
      some (newSession 1 "127.0.0.1" 12345 0) ∧
    GetSessionByEndpoint (CreateSessionUpToFault emptyHandler "127.0.0.1" 12345 0)
      "127.0.0.1" 12345 = none ∧
    ¬ MutuallyConsistent (CreateSessionUpToFault emptyHandler "127.0.0.1" 12345 0) :=
  ⟨rfl, by decide, by decide, by decide⟩

/-! ## Claim C7: the idle/disconnect sweep -/

theorem GetSession_destroy (h : BasicSOEHandler) (id id' : Nat) :
    GetSession (DestroySession h id) id' =
      if id' = id then none else GetSession h id' := by
  cases e : mfind? id h.sessions_ with
  | none =>
    have hD : DestroySession h id = h := by
      unfold DestroySession
      rw [e]
    rw [hD]
    by_cases hid : id' = id
    · rw [if_pos hid, hid]
      exact e
    · rw [if_neg hid]
  | some s =>
    have hs : (DestroySession h id).sessions_ = mdel id h.sessions_ := by
      unfold DestroySession
      rw [e]
    unfold GetSession
    rw [hs, mfind?_mdel]

theorem mfind?_endpoint_destroy (h : BasicSOEHandler) (hc : MutuallyConsistent h)
    (id : Nat) (k : String) :
    mfind? k (DestroySession h id).endpoint_to_session_ =
      match mfind? k h.endpoint_to_session_ with
      | some i => if i = id then none else some i
      | none => none := by
  cases e : mfind? id h.sessions_ with
  | none =>
    have hD : DestroySession h id = h := by
      unfold DestroySession
      rw [e]
    rw [hD]
    cases ek : mfind? k h.endpoint_to_session_ with
    | none => rfl
    | some i =>
      by_cases hid : i = id
      · exfalso
        have h2 := hc.2 (k, i) (mfind?_mem _ _ _ ek)
        have h2' : Option.map sessionKey (mfind? i h.sessions_) = some k := h2
        rw [hid, e] at h2'
        simp at h2'
      · simp [hid]
  | some s =>
    have he : (DestroySession h id).endpoint_to_session_ =
        mdel (sessionKey s) h.endpoint_to_session_ := by
      unfold DestroySession
      rw [e]
      exact rfl
    have hmem : (id, s) ∈ h.sessions_ := mfind?_mem _ _ _ e
    have hkey : mfind? (sessionKey s) h.endpoint_to_session_ = some id := (hc.1 (id, s) hmem).1
    rw [he, mfind?_mdel]
    cases ek : mfind? k h.endpoint_to_session_ with
    | none =>
      by_cases hk : k = sessionKey s
      · rw [if_pos hk]
      · simp [hk]
    | some i =>
      by_cases hid : i = id
      · have huniq : k = sessionKey s := by
          have hu := (hc.1 (id, s) hmem).2 (k, i) (mfind?_mem _ _ _ ek)
          exact hu (by rw [hid])
        rw [if_pos huniq]
        simp [hid]
      · have hk : k ≠ sessionKey s := by
          intro hc2
          rw [hc2, hkey] at ek
          exact hid (Option.some.inj ek).symm
        simp [hk, hid]

theorem foldl_destroy_char (ids : List Nat) (h : BasicSOEHandler) (hwf : WF h) :
    WF (ids.foldl DestroySession h) ∧
    (∀ id', GetSession (ids.foldl DestroySession h) id' =
      if id' ∈ ids then none else GetSession h id') ∧
    (∀ k, mfind? k (ids.foldl DestroySession h).endpoint_to_session_ =
      match mfind? k h.endpoint_to_session_ with
      | some i => if i ∈ ids then none else some i
      | none => none) := by
  induction ids generalizing h with
  | nil =>
    refine ⟨hwf, ?_, ?_⟩
    · intro id'
      simp [List.foldl_nil]
    · intro k
      cases e : mfind? k h.endpoint_to_session_ <;> simp [e]
  | cons j t ih =>
    obtain ⟨ihwf, ihget, ihep⟩ := ih (DestroySession h j) (WF_destroy h j hwf)
    refine ⟨?_, ?_, ?_⟩
    · rw [List.foldl_cons]
      exact ihwf
    · intro id'
      rw [List.foldl_cons, ihget id', GetSession_destroy h j id']
      by_cases h1 : id' = j
      · simp [h1]
      · by_cases h2 : id' ∈ t
        · simp [h1, h2]
        · simp [h1, h2]
    · intro k
      rw [List.foldl_cons, ihep k, mfind?_endpoint_destroy h hwf.2.2 j k]
      cases ek : mfind? k h.endpoint_to_session_ with
      | none => rfl
      | some i =>
        by_cases h1 : i = j
        · simp [h1]
        · by_cases h2 : i ∈ t
          · simp [h1, h2]
          · simp [h1, h2]

theorem mem_to_remove (h : BasicSOEHandler) (hn : (h.sessions_.map Prod.fst).Nodup)
    (now timeout : Nat) (id : Nat) :
    (id ∈ (h.sessions_.filter (fun p => decide (p.2.state = SessionState.Disconnecting ∨
      now - p.2.last_activity > timeout))).map Prod.fst) ↔
    (∃ s, GetSession h id = some s ∧
      (s.state = SessionState.Disconnecting ∨ now - s.last_activity > timeout)) := by
  simp only [List.mem_map, List.mem_filter]
  constructor
  · rintro ⟨p, ⟨hp, hpred⟩, rfl⟩
    exact ⟨p.2, mfind?_of_mem_nodup _ hn p hp, by simpa using hpred⟩
  · rintro ⟨s, hfind, hpred⟩
    exact ⟨(id, s), ⟨mfind?_mem _ _ _ hfind, by simpa using hpred⟩, rfl⟩

theorem GetSessionByEndpoint_none (g : BasicSOEHandler) (addr : String) (port : Nat)
    (hk : mfind? (MakeEndpointKey addr port) g.endpoint_to_session_ = none) :
    GetSessionByEndpoint g addr port = none := by
  unfold GetSessionByEndpoint lookupEndpoint
  rw [hk]
  rfl

/-- C7: the sweep destroys exactly the sessions that are `Disconnecting`
or idle beyond the timeout — afterwards such a session is gone from both
indices (`GetSession` and `GetSessionByEndpoint` return none) while every
other session is still retrievable by id with unchanged contents; in
particular, after an inbound disconnect packet marks a session
`Disconnecting`, the next sweep removes it from both indices. -/
theorem C7_sweep_removes_expired_sessions (h : BasicSOEHandler) (now timeout : Nat)
    (hwf : WF h) :
    (∀ id s, GetSession h id = some s →
      (s.state = SessionState.Disconnecting ∨ now - s.last_activity > timeout) →
      GetSession (CleanupTimedOutSessions h now timeout) id = none ∧
      GetSessionByEndpoint (CleanupTimedOutSessions h now timeout)
        s.remote_address s.remote_port = none) ∧
    (∀ id s, GetSession h id = some s →
      ¬ (s.state = SessionState.Disconnecting ∨ now - s.last_activity > timeout) →
      GetSession (CleanupTimedOutSessions h now timeout) id = some s) ∧
    (∀ data addr port pnow i s, ¬ data.length < 2 → GetOpcode data = SOE_DISCONNECT →
      lookupEndpoint h addr port = some (i, s) →
      GetSession (CleanupTimedOutSessions
        (ProcessIncomingPacket h data addr port pnow).1 now timeout) i = none ∧
      GetSessionByEndpoint (CleanupTimedOutSessions
        (ProcessIncomingPacket h data addr port pnow).1 now timeout) addr port = none) := by
  have main : ∀ g : BasicSOEHandler, WF g → ∀ id s, GetSession g id = some s →
      (s.state = SessionState.Disconnecting ∨ now - s.last_activity > timeout) →
      GetSession (CleanupTimedOutSessions g now timeout) id = none ∧
      mfind? (sessionKey s)
        (CleanupTimedOutSessions g now timeout).endpoint_to_session_ = none := by
    intro g hg id s hfind hpred
    have hC : CleanupTimedOutSessions g now timeout =
        ((g.sessions_.filter (fun p => decide (p.2.state = SessionState.Disconnecting ∨
          now - p.2.last_activity > timeout))).map Prod.fst).foldl DestroySession g := rfl
    obtain ⟨_, hget, hep⟩ := foldl_destroy_char _ g hg
    have hmemTR := (mem_to_remove g hg.1 now timeout id).mpr ⟨s, hfind, hpred⟩
    constructor
    · rw [hC, hget id, if_pos hmemTR]
    · rw [hC, hep (sessionKey s)]
      have hkey : mfind? (sessionKey s) g.endpoint_to_session_ = some id :=
        (hg.2.2.1 (id, s) (mfind?_mem _ _ _ hfind)).1
      rw [hkey]
      show (if id ∈ (g.sessions_.filter
        (fun p => decide (p.2.state = SessionState.Disconnecting ∨
          now - p.2.last_activity > timeout))).map Prod.fst then none else some id) = none
      rw [if_pos hmemTR]
  refine ⟨?_, ?_, ?_⟩
  · intro id s hfind hpred
    obtain ⟨hg1, hg2⟩ := main h hwf id s hfind hpred
    refine ⟨hg1, GetSessionByEndpoint_none _ _ _ ?_⟩
    exact hg2
  · intro id s hfind hpred
    have hC : CleanupTimedOutSessions h now timeout =
        ((h.sessions_.filter (fun p => decide (p.2.state = SessionState.Disconnecting ∨
          now - p.2.last_activity > timeout))).map Prod.fst).foldl DestroySession h := rfl
    obtain ⟨_, hget, _⟩ := foldl_destroy_char _ h hwf
    have hnm : ¬ (id ∈ (h.sessions_.filter
        (fun p => decide (p.2.state = SessionState.Disconnecting ∨
          now - p.2.last_activity > timeout))).map Prod.fst) := by
      intro hmem
      obtain ⟨s', hfind', hpred'⟩ := (mem_to_remove h hwf.1 now timeout id).mp hmem
      rw [hfind] at hfind'
      obtain rfl := (Option.some.inj hfind')
      exact hpred hpred'
    rw [hC, hget id, if_neg hnm]
    exact hfind
  · intro data addr port pnow i s hlen hop hlk
    obtain ⟨hee, hes⟩ := lookupEndpoint_some h addr port i s hlk
    have hkeyeq : sessionKey s = MakeEndpointKey addr port := by
      have h2 : Option.map sessionKey (mfind? i h.sessions_) = some (MakeEndpointKey addr port) :=
        hwf.2.2.2 (MakeEndpointKey addr port, i) (mfind?_mem _ _ _ hee)
      rw [hes] at h2
      simp only [Option.map_some'] at h2
      exact Option.some.inj h2
    have hP : (ProcessIncomingPacket h data addr port pnow).1 = HandleDisconnect h i := by
      rw [process_disconnect_eq h data addr port pnow i s hlen hop hlk]
    have hwf1 : WF (updateSession h i
        (fun s => { s with state := SessionState.Disconnecting })) :=
      WF_update h i _ (fun _ => rfl) hwf
    have hget1 : GetSession (updateSession h i
        (fun s => { s with state := SessionState.Disconnecting })) i =
        some { s with state := SessionState.Disconnecting } :=
      GetSession_update_self h i _ s hes
    have hm := main (updateSession h i (fun s => { s with state := SessionState.Disconnecting }))
      hwf1 i { s with state := SessionState.Disconnecting } hget1 (Or.inl rfl)
    have hHD : HandleDisconnect h i =
        updateSession h i (fun s => { s with state := SessionState.Disconnecting }) := rfl
    rw [hP, hHD]
    refine ⟨hm.1, GetSessionByEndpoint_none _ _ _ ?_⟩
    rw [← hkeyeq]
    exact hm.2

/-- C7 witness: a disconnect packet followed by a sweep removes the
session from both indices; an active session survives the sweep. -/
theorem C7_witness :
    GetSession
      (CleanupTimedOutSessions
        (ProcessIncomingPacket (CreateSessionIntended emptyHandler "g" 3 0) [5, 0] "g" 3 1).1
        1 600) 1 = none ∧
    GetSession (CleanupTimedOutSessions (CreateSessionIntended emptyHandler "g" 3 50) 100 600) 1 =
      some (newSession 1 "g" 3 50) :=
  ⟨((C7_sweep_removes_expired_sessions (CreateSessionIntended emptyHandler "g" 3 0) 1 600
      (by decide)).2.2 [5, 0] "g" 3 1 1 (newSession 1 "g" 3 0) (by decide) (by decide)
      (by decide)).1,
   (C7_sweep_removes_expired_sessions (CreateSessionIntended emptyHandler "g" 3 50) 100 600
      (by decide)).2.1 1 (newSession 1 "g" 3 50) (by decide) (by decide)⟩

end SOE
